import Mathlib

/-!
Verification development for `pseudo_nvt` (nv_tabular): a declarative tabular
preprocessing pipeline.  The definitions below are a shallow embedding of the
Python sources `nv_tabular/stats.py`, `nv_tabular/ops.py` and `nv_tabular/utils.py`
(the `ops.py` Workflow variant, which is the one named by all the claims).

Modelling conventions:
- Python numbers are embedded as elements of a field (`ℚ` in most theorems so
  that concrete evaluation is decidable, `ℝ` for the end-to-end Normalize claim,
  where `np.sqrt` becomes `Real.sqrt`); float rounding is not modelled, the
  arithmetic is exact, matching the claims' phrasing.
- A pandas DataFrame batch becomes an association list of named columns.
- Raised Python exceptions become `Except.error` with a message; the specific
  exception class is recorded in the message text.
- Class-based dispatch (`_op_logic`, `stats_required`, class names) becomes
  explicit fields of the `Op` structure; the built-in subclasses `Log` and
  `Normalize` are given as concrete values, parameterised by the ambient
  `np.log` / `np.sqrt` function of the value field.
-/

/-- Model of `utils.snake_case_class_name` applied to a class name string:
`re.sub(r'(?<!^)(?=[A-Z])', '_', name).lower()` — insert an underscore before
every uppercase character that is not the first character, then lowercase. -/
def snake_case_chars : List Char → Bool → List Char
  | [], _ => []
  | c :: cs, isFirst =>
      if c.isUpper && !isFirst then '_' :: c.toLower :: snake_case_chars cs false
      else c.toLower :: snake_case_chars cs false

/-- String-level wrapper for `snake_case_chars`. -/
def snake_case_class_name (s : String) : String :=
  String.mk (snake_case_chars s.toList true)

/-- Python `str.lower()`: lowercase every character. -/
def pyLower (s : String) : String := String.mk (s.toList.map Char.toLower)

/-- Python `str.startswith(pre)`: prefix test on the character lists. -/
def pyStartsWith (s pre : String) : Bool := List.isPrefixOf pre.toList s.toList

/-- Modelled from the spec: `utils.VariableTypes` is referenced throughout
`ops.py` but is absent from `utils.py`; `utils.py` defines the module-level
constants `ALL = 'all'`, `CONTINUOUS = 'CONTINUOUS'`, `CATEGORICAL =
'CATEGORICAL'` and the spec's variable classes are categorical | continuous |
all, so `VariableTypes` is modelled as a namespace holding exactly those three
constants under those three attribute names. -/
def VariableTypes.attrNames : List String := [("ALL" : String), "CONTINUOUS", "CATEGORICAL"]

/-- Value of the modelled `utils.VariableTypes.ALL`. -/
def VariableTypes.ALL : String := "all"

/-- Value of the modelled `utils.VariableTypes.CONTINUOUS`. -/
def VariableTypes.CONTINUOUS : String := "CONTINUOUS"

/-- Value of the modelled `utils.VariableTypes.CATEGORICAL`. -/
def VariableTypes.CATEGORICAL : String := "CATEGORICAL"

/-- Errors are carried as message strings naming the Python exception class. -/
abbrev Err := String

section MomentsStat

variable {α : Type} [Field α]

/-- Model of `np.mean(column)`: the arithmetic mean, sum divided by length
(in `ℚ`/`ℝ`, division by zero yields zero, covering the empty column). -/
def npMean (l : List α) : α := l.sum / (l.length : α)

/-- Model of `np.var(column)` (ddof = 0): the population variance, the mean of
the squared deviations from the mean. -/
def npVar (l : List α) : α :=
  (l.map (fun x => (x - npMean l) ^ 2)).sum / (l.length : α)

/-- State of the running-moments Stat `Moments`: the dict
`{'count': ..., 'mean': ..., 'var': ...}` of `stats.py`. -/
structure MomentsState (α : Type) where
  count : Nat
  mean : α
  var : α
deriving DecidableEq

/-- Model of `Moments.initialize_state`: every state value starts at `0`. -/
def Moments.initialize_state : MomentsState α := ⟨0, 0, 0⟩

/-- Model of `Moments.update_state` from `stats.py` lines 33-52, the
parallel-aggregation (Chan) merge of a prior aggregate with a new batch. -/
def Moments.update_state (state : MomentsState α) (column : List α) : MomentsState α :=
  let old_count := state.count
  let this_count := column.length
  let new_count := old_count + this_count
  let this_mean := npMean column
  let new_mean :=
    this_mean * ((this_count : α) / (new_count : α)) +
      state.mean * ((old_count : α) / (new_count : α))
  let this_var := npVar column
  let new_var :=
    this_var * ((this_count : α) / (new_count : α)) +
      state.var * ((old_count : α) / (new_count : α)) +
      (((old_count : α) * (this_count : α)) / ((new_count : α)) ^ 2) *
        (this_mean - state.mean) ^ 2
  ⟨new_count, new_mean, new_var⟩

/-- The exact moments of a full dataset: length, arithmetic mean and population
variance of the concatenated data. -/
def momentsOf (l : List α) : MomentsState α := ⟨l.length, npMean l, npVar l⟩

end MomentsStat

section MomentsLemmas

lemma momentsOf_nil : momentsOf ([] : List ℚ) = Moments.initialize_state := by
  simp [momentsOf, Moments.initialize_state, npMean, npVar]

lemma sum_map_sq_sub (l : List ℚ) (m : ℚ) :
    (l.map (fun x => (x - m) ^ 2)).sum =
      (l.map (fun x => x ^ 2)).sum - 2 * m * l.sum + (l.length : ℚ) * m ^ 2 := by
  induction l with
  | nil => simp
  | cons a t ih =>
      simp only [List.map_cons, List.sum_cons, ih, List.length_cons]
      push_cast
      ring

lemma npVar_eq_sumsq (l : List ℚ) :
    npVar l = (l.map (fun x => x ^ 2)).sum / (l.length : ℚ) - (npMean l) ^ 2 := by
  rcases l with _ | ⟨a, t⟩
  · simp [npVar, npMean]
  · have hn : ((a :: t).length : ℚ) ≠ 0 := by
      push_cast [List.length_cons]
      positivity
    rw [npVar, sum_map_sq_sub, npMean]
    field_simp
    ring

/-- One merge step is exact: updating the exact moments of `xs` with a
non-empty batch `ys` yields the exact moments of `xs ++ ys`. -/
lemma Moments_update_state_exact (xs ys : List ℚ) (hys : ys ≠ []) :
    Moments.update_state (momentsOf xs) ys = momentsOf (xs ++ ys) := by
  have hn2 : ((ys.length : ℚ)) ≠ 0 := by
    have : ys.length ≠ 0 := by
      simpa [List.length_eq_zero] using hys
    exact_mod_cast this
  rcases xs with _ | ⟨a, t⟩
  · have h0 : momentsOf ([] : List ℚ) = ⟨0, 0, 0⟩ := by
      simp [momentsOf, npMean, npVar]
    rw [h0, List.nil_append]
    show MomentsState.mk _ _ _ = _
    unfold momentsOf
    congr 1
    · simp [Moments.update_state]
    · show npMean ys * _ + (0 : ℚ) * _ = npMean ys
      field_simp
    · show npVar ys * _ + (0 : ℚ) * _ + _ * (npMean ys - 0) ^ 2 = npVar ys
      push_cast
      field_simp
  · set l := a :: t with hl
    have hn1 : ((l.length : ℚ)) ≠ 0 := by
      rw [hl]
      push_cast [List.length_cons]
      positivity
    have hn : ((l.length : ℚ)) + ((ys.length : ℚ)) ≠ 0 := by
      have h1 : (0 : ℚ) < (l.length : ℚ) := by
        rw [hl]
        push_cast [List.length_cons]
        positivity
      have h2 : (0 : ℚ) ≤ (ys.length : ℚ) := by positivity
      linarith
    show MomentsState.mk _ _ _ = _
    unfold momentsOf
    simp only [MomentsState.mk.injEq]
    refine ⟨by simp, ?_, ?_⟩
    · show npMean ys * _ + npMean l * _ = npMean (l ++ ys)
      simp only [npMean]
      push_cast [List.length_append, List.sum_append]
      field_simp
      ring
    · show npVar ys * _ + npVar l * _ + _ * (npMean ys - npMean l) ^ 2 = npVar (l ++ ys)
      simp only [npVar_eq_sumsq, npMean]
      push_cast [List.length_append, List.sum_append, List.map_append]
      field_simp
      ring

lemma foldl_update_state (batches : List (List ℚ)) :
    ∀ xs : List ℚ, (∀ b ∈ batches, b ≠ []) →
      batches.foldl Moments.update_state (momentsOf xs) = momentsOf (xs ++ batches.flatten) := by
  induction batches with
  | nil => intro xs _; simp
  | cons b bs ih =>
      intro xs h
      have hb : b ≠ [] := h b (by simp)
      have hbs : ∀ x ∈ bs, x ≠ [] := fun x hx => h x (by simp [hx])
      simp only [List.foldl_cons, List.flatten_cons]
      rw [Moments_update_state_exact xs b hb, ih (xs ++ b) hbs, List.append_assoc]

end MomentsLemmas

/-- C1: For the running-moments Stat, folding `Moments.update_state` from
`Moments.initialize_state` over any partition of a dataset into non-empty
batches, in order, yields exactly the count, arithmetic mean and population
variance of the whole concatenation, over exact rational arithmetic —
independently of the partitioning. -/
theorem moments_fold_is_exact_moments_of_join (batches : List (List ℚ))
    (h : ∀ b ∈ batches, b ≠ []) :
    batches.foldl Moments.update_state Moments.initialize_state =
      momentsOf batches.flatten := by
  rw [← momentsOf_nil, foldl_update_state batches [] h, List.nil_append]

/-- Witness for C1 on the partition `[[1], [2, 3]]` of `[1, 2, 3]`. -/
theorem moments_fold_is_exact_moments_of_join_witness :
    (∀ b ∈ [[(1 : ℚ)], [2, 3]], b ≠ []) ∧
      ([[(1 : ℚ)], [2, 3]].foldl Moments.update_state Moments.initialize_state =
        momentsOf [(1 : ℚ), 2, 3]) :=
  ⟨by decide,
    (moments_fold_is_exact_moments_of_join [[(1 : ℚ)], [2, 3]] (by decide)).trans (by rfl)⟩

section LabelEncoder

variable {α : Type} [LinearOrder α]

/-- Ordered duplicate-free insertion, the building block for the model of
`np.unique` (which returns the sorted unique values of its argument). -/
def sortedInsert (x : α) : List α → List α
  | [] => [x]
  | y :: ys =>
      if x < y then x :: y :: ys
      else if x = y then y :: ys
      else y :: sortedInsert x ys

/-- Model of `np.unique`: the sorted list of distinct values. -/
def npUnique (l : List α) : List α := l.foldl (fun acc x => sortedInsert x acc) []

/-- Model of `DLLabelEncoder.initialize_state`: an empty `pd.Series`, i.e. an
empty index; the code of a category is its position in the index. -/
def DLLabelEncoder.initialize_state : List α := []

/-- Model of `DLLabelEncoder.update_state` from `stats.py` lines 63-68:
`np.unique(np.concatenate([state['encoder'].index, column.unique()]))` becomes
the new index, and the codes are `np.arange` over it, i.e. positions.
(`column.unique()` only removes duplicates, which `npUnique` of the
concatenation does anyway, so it is omitted without changing the result.) -/
def DLLabelEncoder.update_state (encoder : List α) (column : List α) : List α :=
  npUnique (encoder ++ column)

/-- The integer code a fitted encoder assigns to a category: its position in
the index (`pd.Series(np.arange(len(new_index)), index=new_index)`). -/
def encoderCode : List α → α → Nat
  | [], _ => 0
  | y :: ys, x => if x = y then 0 else encoderCode ys x + 1

end LabelEncoder

section PipelineDefs

variable {α : Type} [Field α] [LinearOrder α]

/-- Python exception values carried by `Except.error`; the message names the
exception class raised by the corresponding source line. -/
def valueErrorNoColumns : Err := "ValueError: Op not set to act on any columns"

/-- Error of `Op._validate_columns` when explicit columns are missing. -/
def valueErrorMissingColumns : Err := "ValueError: called on columns which do not include columns op has been defined for"

/-- Error of `Op._validate_stats` when no stats context is provided. -/
def valueErrorNoContext : Err := "ValueError: no stats context was provided"

/-- Error of `Op._validate_stats` when the context has no entry for the op. -/
def valueErrorNoCalculatedStats : Err := "ValueError: stats context has no corresponding calculated stats"

/-- Error of `Op._validate_stats` on a stat-count mismatch.  The source tries
to raise a ValueError there, but its format string has two placeholders and
one argument, so the raise itself raises IndexError; either way an exception
propagates. -/
def indexErrorMissingStats : Err := "IndexError: replacement index out of range"

/-- Error of `Op.apply` on the `replace=False` branch: line 78 of `ops.py`
calls `self.get_output_names`, a method that is defined nowhere (only
`get_output_columns` exists), so every non-replace application raises. -/
def attributeErrorGetOutputNames : Err := "AttributeError: Op object has no attribute get_output_names"

/-- Error raised by a failed Python `assert`. -/
def assertionError : Err := "AssertionError"

/-- Error of `Workflow.get_columns` when `re.match` returns None and `.group()`
is called on it. -/
def attributeErrorRegex : Err := "AttributeError: NoneType object has no attribute group"

/-- Error of iterating a non-list `columns` value (None or a callable). -/
def typeError : Err := "TypeError: object is not iterable"

/-- Error of `pandas.DataFrame.drop` on a missing column. -/
def keyError : Err := "KeyError"

/-- Error of `StatsContext.fit` when a stat is required for a column that was
already consumed by an earlier stats op (`stats.py` lines 100-105). -/
def valueErrorStatRelied : Err := "ValueError: stat required for column that relied on stat earlier in workflow"

/-- A pandas DataFrame batch: an ordered association list of named columns. -/
abbrev DataFrame (α : Type) := List (String × List α)

/-- The column names, in order (`gdf.columns`). -/
def dfColumns (g : DataFrame α) : List String := g.map Prod.fst

/-- Value list of a named column (`gdf[c]`); unreachable default for a missing
name, every use site validates presence first. -/
def dfGetCol (g : DataFrame α) (c : String) : List α :=
  ((g.find? (fun p => p.fst = c)).map Prod.snd).getD []

/-- Column selection `gdf[columns]`: the named columns in the given order. -/
def dfSelect (g : DataFrame α) (cols : List String) : DataFrame α :=
  cols.map (fun c => (c, dfGetCol g c))

/-- Column assignment `gdf[columns] = new_gdf` over existing columns:
pandas aligns the assigned frame by column name. -/
def dfAssign (g : DataFrame α) (cols : List String) (new : DataFrame α) : DataFrame α :=
  g.map (fun p => if p.fst ∈ cols then (p.fst, dfGetCol new p.fst) else p)

/-- Model of `gdf.drop(columns=cols)`; pandas raises KeyError when a dropped
column is absent. -/
def dfDrop (g : DataFrame α) (cols : List String) : Except Err (DataFrame α) :=
  if cols.all (fun c => decide (c ∈ dfColumns g)) then
    Except.ok (g.filter (fun p => decide (p.fst ∉ cols)))
  else Except.error keyError

/-- The two Stat classes of `stats.py`. -/
inductive StatKind
  | moments
  | dlLabelEncoder
deriving DecidableEq

/-- A per-column Stat state value: the Moments dict or the encoder Series. -/
inductive StatVal (α : Type)
  | momentsV (m : MomentsState α)
  | encoderV (idx : List α)
deriving DecidableEq

/-- Dispatch of `initialize_state` over the Stat class. -/
def StatKind.initialize_state : StatKind → StatVal α
  | StatKind.moments => StatVal.momentsV Moments.initialize_state
  | StatKind.dlLabelEncoder => StatVal.encoderV DLLabelEncoder.initialize_state

/-- Dispatch of `update_state` over the Stat class.  A state value is only
ever created by `initialize_state` of the same Stat and updated by that Stat,
so the mismatched fallback arm is unreachable. -/
def StatKind.update_state (k : StatKind) (v : StatVal α) (column : List α) : StatVal α :=
  match k, v with
  | StatKind.moments, StatVal.momentsV m => StatVal.momentsV (Moments.update_state m column)
  | StatKind.dlLabelEncoder, StatVal.encoderV idx =>
      StatVal.encoderV (DLLabelEncoder.update_state idx column)
  | _, v => v

/-- The per-stat, per-column state mapping (`{column: state}` dict). -/
abbrev ColStats (α : Type) := List (String × StatVal α)

/-- The ordered list of per-stat states stored under one op identity. -/
abbrev OpStats (α : Type) := List (ColStats α)

/-- `StatsContext.state`: mapping from op identity to its list of StatStates. -/
abbrev StateMap (α : Type) := List (String × OpStats α)

/-- The `columns` field of an `Op`: None, an explicit list, or a predicate
(the callable selection mode). -/
inductive ColumnsSpec
  | pynone
  | explicit (cols : List String)
  | pred (f : String → Bool)

/-- The `name` field of an `Op`: None, an explicit string, or a callable. -/
inductive NameSpec
  | pynone
  | str (s : String)
  | fn (f : String → String)

/-- Stateless representation of a feature operation (`ops.py` class `Op`).
Class-level data (`__class__.__name__`, `default_in`, `stats_required`,
`_op_logic`) become explicit fields; built-in subclasses are concrete values. -/
structure Op (α : Type) where
  columns : ColumnsSpec
  replace : Bool
  name : NameSpec
  className : String
  default_in : String
  stats_required : List StatKind
  op_logic : DataFrame α → Option (OpStats α) → Except Err (DataFrame α)

/-- Model of `Op._id`: the explicit name if a string was given, otherwise the
snake-case version of the class name (also when `name` is a callable). -/
def Op.id (op : Op α) : String :=
  match op.name with
  | NameSpec.str s => s
  | _ => snake_case_class_name op.className

/-- Whitelist membership, with `whitelist is None` meaning no whitelist. -/
def wlContains (wl : Option (List String)) (c : String) : Bool :=
  match wl with
  | Option.none => false
  | Option.some l => decide (c ∈ l)

/-- Model of `Op._validate_columns` (`ops.py` lines 81-109). -/
def Op.validate_columns (op : Op α) (columns : List String) (whitelist : Option (List String)) :
    Except Err (List String) :=
  match op.columns with
  | ColumnsSpec.pred f =>
      if columns.any f then Except.ok (columns.filter f)
      else Except.error valueErrorNoColumns
  | ColumnsSpec.explicit cs =>
      let missing := cs.filter (fun c => !(decide (c ∈ columns)) && !(wlContains whitelist c))
      if missing.isEmpty then Except.ok (cs.filter (fun c => !(wlContains whitelist c)))
      else Except.error valueErrorMissingColumns
  | ColumnsSpec.pynone => Except.ok columns

/-- Model of `Op._validate_stats` (`ops.py` lines 111-145); returns None when
the op requires no stats (the method falls through without returning). -/
def Op.validate_stats (op : Op α) (stats_context : Option (StateMap α)) :
    Except Err (Option (OpStats α)) :=
  if op.stats_required.isEmpty then Except.ok Option.none
  else
    match stats_context with
    | Option.none => Except.error valueErrorNoContext
    | Option.some st =>
        match List.lookup op.id st with
        | Option.none => Except.error valueErrorNoCalculatedStats
        | Option.some l =>
            if op.stats_required.length = l.length then Except.ok (Option.some l)
            else Except.error indexErrorMissingStats

/-- Model of `Op.map_column_name` (`ops.py` lines 147-165). -/
def Op.map_column_name (op : Op α) (column_name : String) : Option String :=
  let acts : Bool :=
    match op.columns with
    | ColumnsSpec.pred f => f column_name
    | ColumnsSpec.explicit cs => decide (column_name ∈ cs)
    | ColumnsSpec.pynone => true
  if !acts then Option.none
  else if op.replace then Option.some column_name
  else
    match op.name with
    | NameSpec.fn f => Option.some (f column_name)
    | _ => Option.some (column_name ++ "_" ++ op.id)

/-- Model of `Op.get_output_columns` (`ops.py` lines 167-173).  For the
non-replace branch the source builds `list(set(mapped) | set(columns))`, whose
CPython iteration order is unspecified (the source carries a TODO about it);
the model fixes one enumeration of that union, and no claim depends on its
order, only on membership. -/
def Op.get_output_columns (op : Op α) (columns : List String) : List String :=
  let mapped := columns.map (fun c => (op.map_column_name c).getD c)
  if op.replace then mapped
  else (mapped ++ columns).dedup

/-- Model of `Op.apply` (`ops.py` lines 66-79).  The `replace=False` branch of
the source reads `gdf[self.get_output_names(columns)] = new_gdf`, and
`get_output_names` is defined nowhere, so that branch raises AttributeError
after computing `new_gdf`. -/
def Op.apply (op : Op α) (gdf : DataFrame α) (stats_context : Option (StateMap α))
    (whitelist : Option (List String)) : Except Err (DataFrame α) :=
  match op.validate_columns (dfColumns gdf) whitelist with
  | Except.error e => Except.error e
  | Except.ok columns =>
      match op.validate_stats stats_context with
      | Except.error e => Except.error e
      | Except.ok stat_state =>
          match op.op_logic (dfSelect gdf columns) stat_state with
          | Except.error e => Except.error e
          | Except.ok new_gdf =>
              if op.replace then Except.ok (dfAssign gdf columns new_gdf)
              else Except.error attributeErrorGetOutputNames

/-- Workflow value: the three schema name lists plus the ordered op list
(`ops.py` class `Workflow`). -/
structure Workflow (α : Type) where
  cat_names : List String
  cont_names : List String
  label_names : List String
  ops : List (Op α)

/-- The op-replay loop inside `Workflow.get_columns`: each op whose
`default_in.lower().startswith(variable_type)` holds is applied via
`get_output_columns`. -/
def replayOps (ops : List (Op α)) (variable_type : String) (columns : List String) :
    List String :=
  ops.foldl
    (fun cols op =>
      if pyStartsWith (pyLower op.default_in) variable_type then
        op.get_output_columns cols
      else cols)
    columns

/-- Model of `Workflow.get_columns` (`ops.py` lines 210-218):
`assert hasattr(utils.VariableTypes, variable_type)`, then
`re.match('C(A|ON)T', variable_type)` picks `cat_names` or `cont_names`
(raising AttributeError on no match), then the replay loop runs. -/
def Workflow.get_columns (w : Workflow α) (variable_type : String) :
    Except Err (List String) :=
  if variable_type ∈ VariableTypes.attrNames then
    if pyStartsWith variable_type ("CAT") then
      Except.ok (replayOps w.ops variable_type w.cat_names)
    else if pyStartsWith variable_type ("CONT") then
      Except.ok (replayOps w.ops variable_type w.cont_names)
    else Except.error attributeErrorRegex
  else Except.error assertionError

/-- `Workflow.categorical_columns`. -/
def Workflow.categorical_columns (w : Workflow α) : Except Err (List String) :=
  w.get_columns VariableTypes.CATEGORICAL

/-- `Workflow.continuous_columns`. -/
def Workflow.continuous_columns (w : Workflow α) : Except Err (List String) :=
  w.get_columns VariableTypes.CONTINUOUS

/-- `Workflow.columns`: categorical ++ continuous ++ label names. -/
def Workflow.columns (w : Workflow α) : Except Err (List String) :=
  match w.categorical_columns with
  | Except.error e => Except.error e
  | Except.ok cat =>
      match w.continuous_columns with
      | Except.error e => Except.error e
      | Except.ok cont => Except.ok (cat ++ cont ++ w.label_names)

end PipelineDefs

section PipelineDefs2

variable {α : Type} [Field α] [LinearOrder α]

/-- The op loop of `Workflow.apply`: each op is applied in order, threading the
batch through; the first raised exception aborts the whole call. -/
def applyOps (ctx : Option (StateMap α)) : List (Op α) → DataFrame α → Except Err (DataFrame α)
  | [], gdf => Except.ok gdf
  | op :: rest, gdf =>
      match op.apply gdf ctx Option.none with
      | Except.error e => Except.error e
      | Except.ok g => applyOps ctx rest g

/-- Model of `Workflow.apply` (`ops.py` lines 236-239). -/
def Workflow.apply (w : Workflow α) (gdf : DataFrame α) (ctx : Option (StateMap α)) :
    Except Err (DataFrame α) := applyOps ctx w.ops gdf

/-- Model of `Op.__call__` (`ops.py` lines 175-194) for a plain op (one that
is not itself a Workflow): validate against the workflow's derived columns,
then either freeze the current class columns into a new op (when `columns` is
None) or append the op as-is, returning a new Workflow value. -/
def opCall (op : Op α) (w : Workflow α) : Except Err (Workflow α) :=
  match w.columns with
  | Except.error e => Except.error e
  | Except.ok wcols =>
      match op.validate_columns wcols Option.none with
      | Except.error e => Except.error e
      | Except.ok _ =>
          match op.columns with
          | ColumnsSpec.pynone =>
              (match w.get_columns op.default_in with
               | Except.error e => Except.error e
               | Except.ok cols =>
                   Except.ok
                     { w with
                       ops := w.ops ++ [{ op with columns := ColumnsSpec.explicit cols }] })
          | _ => Except.ok { w with ops := w.ops ++ [op] }

/-- Model of `Op.__call__` when `self` is itself a Workflow (`hasattr(self,
'ops')`): `self.columns` is the inner workflow's derived column list, which is
validated as an explicit column list against the outer workflow, and the inner
op list is appended wholesale. -/
def workflowCall (inner : Workflow α) (w : Workflow α) : Except Err (Workflow α) :=
  match w.columns with
  | Except.error e => Except.error e
  | Except.ok wcols =>
      match inner.columns with
      | Except.error e => Except.error e
      | Except.ok icols =>
          if (icols.filter (fun c => !(decide (c ∈ wcols)))).isEmpty then
            Except.ok { w with ops := w.ops ++ inner.ops }
          else Except.error valueErrorMissingColumns

/-- The composition loop of `Workflow.__new__`: `obj = op(obj)` over the ops
argument, in order. -/
def composeAll : List (Op α) → Workflow α → Except Err (Workflow α)
  | [], w => Except.ok w
  | op :: rest, w =>
      match opCall op w with
      | Except.error e => Except.error e
      | Except.ok w' => composeAll rest w'

/-- Model of `Workflow.__new__` (`ops.py` lines 203-208): start from the name
lists with an empty op list, then compose each op of the `ops` argument. -/
def Workflow.new (cat_names cont_names label_names : List String) (ops : List (Op α)) :
    Except Err (Workflow α) :=
  composeAll ops ⟨cat_names, cont_names, label_names, []⟩

/-- The built-in `Log` op: continuous class, no stats, `np.log` in place.
`npLog` stands for `np.log` (at `ℝ` it is `Real.log`). -/
def LogOp (npLog : α → α) : Op α :=
  { columns := ColumnsSpec.pynone
    replace := true
    name := NameSpec.pynone
    className := "Log"
    default_in := VariableTypes.CONTINUOUS
    stats_required := []
    op_logic := fun gdf _ => Except.ok (gdf.map (fun p => (p.fst, p.snd.map npLog))) }

/-- The built-in `Normalize` op: continuous class, requires one Moments stat,
output `(x - mean) / np.sqrt(var)` per column, reading `stats[0][column]`.
`npSqrt` stands for `np.sqrt` (at `ℝ` it is `Real.sqrt`). -/
def NormalizeOp (npSqrt : α → α) : Op α :=
  { columns := ColumnsSpec.pynone
    replace := true
    name := NameSpec.pynone
    className := "Normalize"
    default_in := VariableTypes.CONTINUOUS
    stats_required := [StatKind.moments]
    op_logic := fun gdf stats =>
      match stats with
      | Option.some (st0 :: _) =>
          gdf.mapM (fun p =>
            match List.lookup p.fst st0 with
            | Option.some (StatVal.momentsV m) =>
                Except.ok (p.fst, p.snd.map (fun x => (x - m.mean) / npSqrt m.var))
            | _ => Except.error keyError)
      | _ => Except.error typeError }

/-- Iterating the `columns` attribute of an op (`for column in op.columns`,
`whitelist.extend(op.columns)`, `gdf.drop(columns=op.columns)`): a Python
TypeError when `columns` is None or a callable. -/
def pyIterColumns : ColumnsSpec → Except Err (List String)
  | ColumnsSpec.explicit cs => Except.ok cs
  | _ => Except.error typeError

/-- Append to the list stored under a key, creating the entry at the end when
absent (`defaultdict(list)` plus `list.append`). -/
def stateAppend (st : StateMap α) (k : String) (vs : OpStats α) : StateMap α :=
  match List.lookup k st with
  | Option.some old => st.map (fun p => if p.fst = k then (k, old ++ vs) else p)
  | Option.none => st ++ [(k, vs)]

/-- Replace the list stored under an existing key. -/
def stateSet (st : StateMap α) (k : String) (v : OpStats α) : StateMap α :=
  st.map (fun p => if p.fst = k then (k, v) else p)

/-- The cold-start state allocation of `StatsContext.fit` (`stats.py` lines
84-91): for every op, one per-column initialized dict per required stat,
appended under the op identity; ops requiring no stats get no entry. -/
def initialize_stats_state : List (Op α) → StateMap α → Except Err (StateMap α)
  | [], st => Except.ok st
  | op :: rest, st =>
      if op.stats_required.isEmpty then initialize_stats_state rest st
      else
        match pyIterColumns op.columns with
        | Except.error e => Except.error e
        | Except.ok cols =>
            initialize_stats_state rest
              (stateAppend st op.id
                (op.stats_required.map
                  (fun k => cols.map (fun c => (c, StatKind.initialize_state k)))))

/-- Python `column in state[op._id]` from the warm-start branch of
`StatsContext.fit`: the membership test compares the column name string
against the per-stat dicts held in the list, and `str == dict` is always
False in Python, so this test never succeeds. -/
def pyStrEqColStats (_ : String) (_ : ColStats α) : Bool := false

/-- The warm-start assertion loop of `StatsContext.fit` (`stats.py` lines
78-83): every op identity must be a key of the prior state, and every op
column must pass the (string-vs-dict) membership test above. -/
def warm_start_check : List (Op α) → StateMap α → Except Err Unit
  | [], _ => Except.ok Unit.unit
  | op :: rest, st =>
      match List.lookup op.id st with
      | Option.none => Except.error assertionError
      | Option.some entry =>
          match pyIterColumns op.columns with
          | Except.error e => Except.error e
          | Except.ok cols =>
              if cols.all (fun c => entry.any (fun d => pyStrEqColStats c d)) then
                warm_start_check rest st
              else Except.error assertionError

/-- The inner per-column update loop of the fit pass (`stats.py` lines
99-107): iterate the per-stat dict in order, raising when a required column is
absent from the batch, otherwise merging the batch values into its state. -/
def update_column_states (kind : StatKind) (gdf : DataFrame α) :
    ColStats α → Except Err (ColStats α)
  | [] => Except.ok []
  | (c, v) :: rest =>
      if c ∈ dfColumns gdf then
        match update_column_states kind gdf rest with
        | Except.error e => Except.error e
        | Except.ok rest' =>
            Except.ok ((c, StatKind.update_state kind v (dfGetCol gdf c)) :: rest')
      else Except.error valueErrorStatRelied

/-- The `zip(op.stats_required, state[op._id])` loop of the fit pass. -/
def update_zipped (gdf : DataFrame α) :
    List (StatKind × ColStats α) → Except Err (OpStats α)
  | [] => Except.ok []
  | (k, stst) :: rest =>
      match update_column_states k gdf stst with
      | Except.error e => Except.error e
      | Except.ok s' =>
          match update_zipped gdf rest with
          | Except.error e => Except.error e
          | Except.ok rest' => Except.ok (s' :: rest')

/-- One op's stat update within a batch: `zip` truncates to the shorter of the
two lists and the in-place dict mutation leaves any surplus stored states
untouched, hence the `++ sts.drop (min ...)`. -/
def update_op_stats (kinds : List StatKind) (sts : OpStats α) (gdf : DataFrame α) :
    Except Err (OpStats α) :=
  match update_zipped gdf (kinds.zip sts) with
  | Except.error e => Except.error e
  | Except.ok u => Except.ok (u ++ sts.drop (min kinds.length sts.length))

/-- One op step inside a fit batch (`stats.py` lines 95-111): an op whose
identity is a state key has its stats updated from the raw batch, its columns
appended to the whitelist and dropped from the batch; any other op is applied
to the batch in place (with the whitelist excusing absent explicit columns). -/
def fit_op_step (st : StateMap α) (wl : List String) (gdf : DataFrame α) (op : Op α) :
    Except Err (StateMap α × List String × DataFrame α) :=
  match List.lookup op.id st with
  | Option.some entry =>
      (match update_op_stats op.stats_required entry gdf with
       | Except.error e => Except.error e
       | Except.ok entry' =>
           match pyIterColumns op.columns with
           | Except.error e => Except.error e
           | Except.ok cols =>
               match dfDrop gdf cols with
               | Except.error e => Except.error e
               | Except.ok gdf' => Except.ok (stateSet st op.id entry', wl ++ cols, gdf'))
  | Option.none =>
      match op.apply gdf Option.none (Option.some wl) with
      | Except.error e => Except.error e
      | Except.ok gdf' => Except.ok (st, wl, gdf')

/-- The per-batch op loop of `StatsContext.fit`, threading state, whitelist
and the shrinking batch. -/
def process_batch_ops (st : StateMap α) (wl : List String) (gdf : DataFrame α) :
    List (Op α) → Except Err (StateMap α)
  | [] => Except.ok st
  | op :: rest =>
      match fit_op_step st wl gdf op with
      | Except.error e => Except.error e
      | Except.ok (st', wl', gdf') => process_batch_ops st' wl' gdf' rest

/-- The batch loop of `StatsContext.fit`: the whitelist restarts empty at each
batch; the state threads through all batches. -/
def fit_batches (ops : List (Op α)) : StateMap α → List (DataFrame α) → Except Err (StateMap α)
  | st, [] => Except.ok st
  | st, gdf :: rest =>
      match process_batch_ops st [] gdf ops with
      | Except.error e => Except.error e
      | Except.ok st' => fit_batches ops st' rest

/-- Model of `StatsContext.fit` (`stats.py` lines 77-112): warm-start check or
cold allocation, then one pass over the dataset's batches; on success the
returned state is committed atomically (the source assigns `self.__state` only
after the loop). -/
def StatsContext.fit (prior : StateMap α) (w : Workflow α) (dataset : List (DataFrame α))
    (warm_start : Bool) : Except Err (StateMap α) :=
  let init : Except Err (StateMap α) :=
    if warm_start && !prior.isEmpty then
      match warm_start_check w.ops prior with
      | Except.error e => Except.error e
      | Except.ok _ => Except.ok prior
    else initialize_stats_state w.ops []
  match init with
  | Except.error e => Except.error e
  | Except.ok st0 => fit_batches w.ops st0 dataset

end PipelineDefs2

section ConcreteInstances

/-- A `Log` op with `replace=False` and explicit column `x`, over `ℚ`.  The
identity function stands in for `np.log`; the theorems using this op never
inspect the values it produces, only names and raised errors. -/
def logNF : Op ℚ :=
  { LogOp (fun x => x) with
    replace := false
    columns := ColumnsSpec.explicit [("x" : String)] }

/-- A workflow holding one continuous column `x` and the renaming `Log` op. -/
def wLogNF : Workflow ℚ := ⟨[], [("x" : String)], [], [logNF]⟩

/-- A `Normalize` op with frozen explicit column `x`, over `ℚ` (the identity
stands in for `np.sqrt`; never evaluated in the theorems using it). -/
def normX : Op ℚ :=
  { NormalizeOp (fun x => x) with columns := ColumnsSpec.explicit [("x" : String)] }

/-- A workflow holding one continuous column `x` and the fitted-stats op. -/
def wNormX : Workflow ℚ := ⟨[], [("x" : String)], [], [normX]⟩

/-- A prior fitted state compatible with `wNormX` in the sense of the spec:
the op identity `normalize` is a key and the column `x` has a stored Moments
state. -/
def priorNormX : StateMap ℚ :=
  [(("normalize" : String), [[(("x" : String), StatVal.momentsV ⟨5, 3, 2⟩)]])]

end ConcreteInstances

/-- C2: the code evaluation refuting the op-replay reading of
`Workflow.get_columns`.  The replay guard
`op.default_in.lower().startswith(variable_type)` compares a lowercased string
against the uppercase class constant `CONTINUOUS`, so it never holds and no
op's `get_output_columns` is ever applied: on a workflow whose continuous-class
op renames `x` to `x_log`, `get_columns` still returns just `['x']`, although
the op's own output-name derivation produces `x_log`. -/
theorem get_columns_never_replays_ops :
    Workflow.get_columns wLogNF VariableTypes.CONTINUOUS = Except.ok [("x" : String)] ∧
    logNF.default_in = VariableTypes.CONTINUOUS ∧
    ("x_log" : String) ∈ logNF.get_output_columns [("x" : String)] ∧
    ("x_log" : String) ∉ [("x" : String)] :=
  ⟨rfl, rfl, by decide, by decide⟩

/-- C3: the code evaluation refuting monotone code assignment in
`DLLabelEncoder.update_state`.  After fitting the single category `2` it has
code `0`; updating with a batch containing the smaller new category `1`
rebuilds the codes from the sorted union, so `2` is reassigned code `1` (and
the new category receives `0`, not the next unused code). -/
theorem label_encoder_update_reassigns_existing_code :
    DLLabelEncoder.update_state (DLLabelEncoder.initialize_state) [(2 : ℤ)] = [2] ∧
    encoderCode [(2 : ℤ)] 2 = 0 ∧
    DLLabelEncoder.update_state [(2 : ℤ)] [1] = [1, 2] ∧
    encoderCode [(1 : ℤ), 2] 2 = 1 ∧
    encoderCode [(1 : ℤ), 2] 1 = 0 := by
  refine ⟨by decide, by decide, by decide, by decide, by decide⟩

/-- C4: the code evaluation refuting the `replace=False` half of the apply
contract.  `Op.apply` on a non-replace op reaches
`gdf[self.get_output_names(columns)] = new_gdf` (`ops.py` line 78) and
`get_output_names` is defined nowhere in the repository, so the application
raises AttributeError instead of adding the derived column `x_log`. -/
theorem apply_nonreplace_raises_attribute_error :
    Op.apply logNF [(("x" : String), [(1 : ℚ)])] Option.none Option.none =
      Except.error attributeErrorGetOutputNames ∧
    logNF.map_column_name ("x") = Option.some ("x_log") :=
  ⟨rfl, rfl⟩

/-- C6: the code evaluation refuting the warm-start compatibility contract.
The prior state holds the op identity `normalize` and its column `x`, exactly
what the workflow requires, yet `StatsContext.fit` with `warm_start=True`
fails: the assertion `column in state[op._id]` tests the column name against
the list of per-stat dicts, and a Python string never equals a dict, so the
assert fails on every compatible non-empty prior state. -/
theorem warm_start_fit_rejects_compatible_prior :
    (List.lookup normX.id priorNormX).isSome = true ∧
    (∃ d ∈ (List.lookup normX.id priorNormX).getD [], ("x" : String) ∈ d.map Prod.fst) ∧
    StatsContext.fit priorNormX wNormX [[(("x" : String), [(1 : ℚ), 2, 3])]] true =
      Except.error assertionError :=
  ⟨rfl, ⟨[(("x" : String), StatVal.momentsV ⟨5, 3, 2⟩)], by decide, by decide⟩, rfl⟩

section CompositionClaims

/-- C5: composing an Op whose explicit column list contains a column absent
from the workflow's derived schema (`Workflow.columns`) yields a selection
error, and — the embedding being pure — the original workflow value is
untouched; conversely a successful composition returns a new Workflow value
agreeing with the original on all three name lists and extending its op list. -/
theorem op_call_missing_column_errors_and_success_extends (op : Op ℚ) (w : Workflow ℚ) :
    (∀ cs c, op.columns = ColumnsSpec.explicit cs → c ∈ cs →
        (∀ l, w.columns = Except.ok l → c ∉ l) →
        ∃ e, opCall op w = Except.error e) ∧
    (∀ w', opCall op w = Except.ok w' →
        w'.cat_names = w.cat_names ∧ w'.cont_names = w.cont_names ∧
        w'.label_names = w.label_names ∧ ∃ extra, w'.ops = w.ops ++ extra) := by
  constructor
  · intro cs c hcs hc habs
    unfold opCall
    cases hwc : w.columns with
    | error e => exact ⟨e, rfl⟩
    | ok wcols =>
        have hnot : c ∉ wcols := habs wcols hwc
        have hval : op.validate_columns wcols Option.none =
            Except.error valueErrorMissingColumns := by
          unfold Op.validate_columns
          rw [hcs]
          have hmem : c ∈ cs.filter
              (fun c => !(decide (c ∈ wcols)) && !(wlContains Option.none c)) := by
            rw [List.mem_filter]
            refine ⟨hc, ?_⟩
            simp [wlContains, hnot]
          have hne : (cs.filter
              (fun c => !(decide (c ∈ wcols)) && !(wlContains Option.none c))).isEmpty =
                false := by
            rcases hfe : cs.filter
                (fun c => !(decide (c ∈ wcols)) && !(wlContains Option.none c)) with _ | ⟨a, t⟩
            · rw [hfe] at hmem
              cases hmem
            · rfl
          simp only [hne, Bool.false_eq_true, if_false]
        refine ⟨valueErrorMissingColumns, ?_⟩
        simp only [hval]
  · intro w' h
    unfold opCall at h
    split at h
    · cases h
    · split at h
      · cases h
      · split at h
        · split at h
          · cases h
          · cases h
            exact ⟨rfl, rfl, rfl, _, rfl⟩
        · cases h
          exact ⟨rfl, rfl, rfl, _, rfl⟩

/-- Witness for C5: composing an op defined for the absent column `y` onto the
single-continuous-column workflow errors. -/
theorem op_call_missing_column_errors_witness :
    ∃ e, opCall { logNF with columns := ColumnsSpec.explicit [("y" : String)] } wLogNF =
      Except.error e :=
  (op_call_missing_column_errors_and_success_extends
      { logNF with columns := ColumnsSpec.explicit [("y" : String)] } wLogNF).1
    [("y" : String)] ("y") rfl (by decide)
    (fun l hl => by
      have h0 : wLogNF.columns = Except.ok [("x" : String)] := rfl
      rw [h0] at hl
      injection hl with h1
      rw [← h1]
      decide)

end CompositionClaims

section ResolvedInvariant

/-- Every op stored in the workflow has a resolved column selector: an
explicit list or a predicate, never the default None. -/
def ResolvedOps {α : Type} (w : Workflow α) : Prop :=
  ∀ op ∈ w.ops, op.columns ≠ ColumnsSpec.pynone

lemma opCall_preserves_resolved {op : Op ℚ} {w w' : Workflow ℚ}
    (hw : ResolvedOps w) (h : opCall op w = Except.ok w') : ResolvedOps w' := by
  unfold opCall at h
  split at h
  · cases h
  · split at h
    · cases h
    · cases hoc : op.columns with
      | pynone =>
          rw [hoc] at h
          cases hg : w.get_columns op.default_in with
          | error e =>
              rw [hg] at h
              cases h
          | ok cols =>
              rw [hg] at h
              cases h
              intro o ho
              rcases List.mem_append.mp ho with hin | hnew
              · exact hw o hin
              · rcases List.mem_singleton.mp hnew with rfl
                intro hcon
                cases hcon
      | explicit cs =>
          rw [hoc] at h
          cases h
          intro o ho
          rcases List.mem_append.mp ho with hin | hnew
          · exact hw o hin
          · rcases List.mem_singleton.mp hnew with rfl
            rw [hoc]
            intro hcon
            cases hcon
      | pred f =>
          rw [hoc] at h
          cases h
          intro o ho
          rcases List.mem_append.mp ho with hin | hnew
          · exact hw o hin
          · rcases List.mem_singleton.mp hnew with rfl
            rw [hoc]
            intro hcon
            cases hcon

lemma composeAll_preserves_resolved :
    ∀ (ops : List (Op ℚ)) (w w' : Workflow ℚ), ResolvedOps w →
      composeAll ops w = Except.ok w' → ResolvedOps w' := by
  intro ops
  induction ops with
  | nil =>
      intro w w' hw h
      unfold composeAll at h
      cases h
      exact hw
  | cons op rest ih =>
      intro w w' hw h
      unfold composeAll at h
      split at h
      · cases h
      · rename_i w1 heq
        exact ih w1 w' (opCall_preserves_resolved hw heq) h

/-- C10: every op stored in a composed workflow has a resolved column
selector.  The invariant is established by `Workflow.__new__` (which composes
its ops argument one by one onto an empty op list), preserved by plain-op and
workflow-on-workflow composition, and a default-selection op (`columns=None`)
is frozen at composition time into a new op holding the workflow's current
derived class columns explicitly. -/
theorem composed_ops_always_have_resolved_columns :
    (∀ (cat cont lab : List String) (ops : List (Op ℚ)) (w : Workflow ℚ),
        Workflow.new cat cont lab ops = Except.ok w → ResolvedOps w) ∧
    (∀ (op : Op ℚ) (w w' : Workflow ℚ), ResolvedOps w →
        opCall op w = Except.ok w' → ResolvedOps w') ∧
    (∀ (inner w w' : Workflow ℚ), ResolvedOps w → ResolvedOps inner →
        workflowCall inner w = Except.ok w' → ResolvedOps w') ∧
    (∀ (op : Op ℚ) (w w' : Workflow ℚ), op.columns = ColumnsSpec.pynone →
        opCall op w = Except.ok w' →
        ∃ cols, w.get_columns op.default_in = Except.ok cols ∧
          w'.ops = w.ops ++ [{ op with columns := ColumnsSpec.explicit cols }]) := by
  refine ⟨?_, ?_, ?_, ?_⟩
  · intro cat cont lab ops w h
    refine composeAll_preserves_resolved ops ⟨cat, cont, lab, []⟩ w ?_ h
    intro o ho
    cases ho
  · intro op w w' hw h
    exact opCall_preserves_resolved hw h
  · intro inner w w' hw hinner h
    unfold workflowCall at h
    split at h
    · cases h
    · split at h
      · cases h
      · split at h
        · cases h
          intro o ho
          rcases List.mem_append.mp ho with hin | hin
          · exact hw o hin
          · exact hinner o hin
        · cases h
  · intro op w w' hpy h
    unfold opCall at h
    split at h
    · cases h
    · split at h
      · cases h
      · rw [hpy] at h
        cases hg : w.get_columns op.default_in with
        | error e =>
            rw [hg] at h
            cases h
        | ok cols =>
            rw [hg] at h
            cases h
            exact ⟨cols, rfl, rfl⟩

/-- Witness for C10: building a workflow from a default-selection Normalize op
produces the frozen explicit-column op, and the invariant holds of the result. -/
theorem composed_ops_always_have_resolved_columns_witness :
    Workflow.new [] [("x" : String)] [] [NormalizeOp (fun x => (x : ℚ))] =
        Except.ok wNormX ∧
      ResolvedOps wNormX :=
  ⟨rfl, (composed_ops_always_have_resolved_columns).1 [] [("x" : String)] []
    [NormalizeOp (fun x => (x : ℚ))] wNormX rfl⟩

end ResolvedInvariant

section StatsMissingClaims

lemma validate_stats_error_of_bad_ctx (op : Op ℚ) (ctx : Option (StateMap ℚ))
    (hreq : op.stats_required ≠ [])
    (hbad : ctx = Option.none ∨ ctx = Option.some [] ∨
      (∃ s l, ctx = Option.some s ∧ List.lookup op.id s = Option.some l ∧
        l.length ≠ op.stats_required.length)) :
    ∃ e, op.validate_stats ctx = Except.error e := by
  have hne : op.stats_required.isEmpty = false := by
    rcases hh : op.stats_required with _ | ⟨a, t⟩
    · exact absurd hh hreq
    · rfl
  unfold Op.validate_stats
  rw [hne]
  simp only [Bool.false_eq_true, if_false]
  rcases hbad with rfl | hbad
  · exact ⟨valueErrorNoContext, rfl⟩
  rcases hbad with rfl | ⟨s, l, rfl, hlk, hlen⟩
  · exact ⟨valueErrorNoCalculatedStats, rfl⟩
  · have hif : (op.stats_required.length = l.length) = False :=
      eq_false (fun h => hlen h.symm)
    refine ⟨indexErrorMissingStats, ?_⟩
    simp only [hlk, hif, if_false]

lemma apply_error_of_bad_stats (op : Op ℚ) (gdf : DataFrame ℚ) (ctx : Option (StateMap ℚ))
    (wl : Option (List String)) (hreq : op.stats_required ≠ [])
    (hbad : ctx = Option.none ∨ ctx = Option.some [] ∨
      (∃ s l, ctx = Option.some s ∧ List.lookup op.id s = Option.some l ∧
        l.length ≠ op.stats_required.length)) :
    ∃ e, op.apply gdf ctx wl = Except.error e := by
  unfold Op.apply
  cases hvc : op.validate_columns (dfColumns gdf) wl with
  | error e => exact ⟨e, rfl⟩
  | ok cols =>
      obtain ⟨e, hvs⟩ := validate_stats_error_of_bad_ctx op ctx hreq hbad
      rw [hvs]
      exact ⟨e, rfl⟩

lemma applyOps_error_of_failing_mem (ctx : Option (StateMap ℚ)) (op : Op ℚ)
    (hfail : ∀ g : DataFrame ℚ, ∃ e, op.apply g ctx Option.none = Except.error e) :
    ∀ (ops : List (Op ℚ)), op ∈ ops →
      ∀ gdf : DataFrame ℚ, ∃ e, applyOps ctx ops gdf = Except.error e := by
  intro ops
  induction ops with
  | nil => intro hop; cases hop
  | cons hd rest ih =>
      intro hop gdf
      unfold applyOps
      cases hh : hd.apply gdf ctx Option.none with
      | error e => exact ⟨e, rfl⟩
      | ok g' =>
          rcases List.mem_cons.mp hop with rfl | hmem
          · obtain ⟨e, he⟩ := hfail gdf
            rw [he] at hh
            cases hh
          · exact ih hmem g'

/-- C7: applying a Workflow that contains an op with non-empty
`stats_required` errors out (producing no transformed batch) whenever the
stats context is absent, or was never fit (empty state), or stores a list of
StatStates under the op's identity whose length differs from the declared
requirement. -/
theorem apply_with_missing_stats_errors (w : Workflow ℚ) (gdf : DataFrame ℚ)
    (ctx : Option (StateMap ℚ)) (op : Op ℚ) (hop : op ∈ w.ops)
    (hreq : op.stats_required ≠ [])
    (hbad : ctx = Option.none ∨ ctx = Option.some [] ∨
      (∃ s l, ctx = Option.some s ∧ List.lookup op.id s = Option.some l ∧
        l.length ≠ op.stats_required.length)) :
    ∃ e, w.apply gdf ctx = Except.error e :=
  applyOps_error_of_failing_mem ctx op
    (fun g => apply_error_of_bad_stats op g ctx Option.none hreq hbad) w.ops hop gdf

/-- Witness for C7: the Normalize workflow applied with no stats context. -/
theorem apply_with_missing_stats_errors_witness :
    normX ∈ wNormX.ops ∧ normX.stats_required ≠ [] ∧
      ∃ e, wNormX.apply [(("x" : String), [(1 : ℚ)])] Option.none = Except.error e :=
  ⟨List.Mem.head _, by decide,
    apply_with_missing_stats_errors wNormX [(("x" : String), [(1 : ℚ)])] Option.none normX
      (List.Mem.head _) (by decide) (Or.inl rfl)⟩

end StatsMissingClaims

section FitPassClaims

/-- The columns for which a state holds a required stat accumulator of the
given op: the keys of the per-column dicts paired with the op's required
stats by the `zip` of the fit loop. -/
def requiredStatCols (st : StateMap ℚ) (op : Op ℚ) : List String :=
  match List.lookup op.id st with
  | Option.some entry =>
      ((op.stats_required.zip entry).map (fun p => p.2.map Prod.fst)).flatten
  | Option.none => []

lemma update_column_states_keys {kind : StatKind} {gdf : DataFrame ℚ} :
    ∀ {sts sts' : ColStats ℚ}, update_column_states kind gdf sts = Except.ok sts' →
      sts'.map Prod.fst = sts.map Prod.fst := by
  intro sts
  induction sts with
  | nil =>
      intro sts' h
      unfold update_column_states at h
      cases h
      rfl
  | cons p rest ih =>
      intro sts' h
      obtain ⟨c, v⟩ := p
      unfold update_column_states at h
      split at h
      · cases hrec : update_column_states kind gdf rest with
        | error e => rw [hrec] at h; cases h
        | ok rest' =>
            rw [hrec] at h
            cases h
            simp [ih hrec]
      · cases h

lemma update_column_states_error_of_missing {kind : StatKind} {gdf : DataFrame ℚ} {c : String}
    (hc : c ∉ dfColumns gdf) :
    ∀ {sts : ColStats ℚ}, c ∈ sts.map Prod.fst →
      ∃ e, update_column_states kind gdf sts = Except.error e := by
  intro sts
  induction sts with
  | nil => intro h; cases h
  | cons p rest ih =>
      intro hmem
      obtain ⟨c0, v⟩ := p
      unfold update_column_states
      by_cases h0 : c0 ∈ dfColumns gdf
      · rw [if_pos h0]
        have hc0 : c ≠ c0 := fun hh => hc (hh ▸ h0)
        have hrest : c ∈ rest.map Prod.fst := by
          simp only [List.map_cons, List.mem_cons] at hmem
          rcases hmem with heq | hmem
          · exact absurd heq hc0
          · exact hmem
        obtain ⟨e, he⟩ := ih hrest
        rw [he]
        exact ⟨e, rfl⟩
      · rw [if_neg h0]
        exact ⟨valueErrorStatRelied, rfl⟩

lemma update_zipped_keys {gdf : DataFrame ℚ} :
    ∀ {l : List (StatKind × ColStats ℚ)} {u : OpStats ℚ},
      update_zipped gdf l = Except.ok u →
        u.map (fun s => s.map Prod.fst) = l.map (fun p => p.2.map Prod.fst) := by
  intro l
  induction l with
  | nil =>
      intro u h
      unfold update_zipped at h
      cases h
      rfl
  | cons q rest ih =>
      intro u h
      obtain ⟨k, stst⟩ := q
      unfold update_zipped at h
      cases h1 : update_column_states k gdf stst with
      | error e => rw [h1] at h; cases h
      | ok s' =>
          rw [h1] at h
          cases h2 : update_zipped gdf rest with
          | error e => rw [h2] at h; cases h
          | ok rest' =>
              rw [h2] at h
              cases h
              simp [update_column_states_keys h1, ih h2]

lemma update_zipped_error_of_missing {gdf : DataFrame ℚ} {c : String}
    (hc : c ∉ dfColumns gdf) :
    ∀ {l : List (StatKind × ColStats ℚ)},
      (∃ p ∈ l, c ∈ p.2.map Prod.fst) →
      ∃ e, update_zipped gdf l = Except.error e := by
  intro l
  induction l with
  | nil =>
      rintro ⟨p, hp, _⟩
      cases hp
  | cons q rest ih =>
      rintro ⟨p, hp, hmem⟩
      obtain ⟨k, stst⟩ := q
      unfold update_zipped
      rcases List.mem_cons.mp hp with rfl | hrest
      · obtain ⟨e, he⟩ := update_column_states_error_of_missing hc hmem
        rw [he]
        exact ⟨e, rfl⟩
      · cases h1 : update_column_states k gdf stst with
        | error e => exact ⟨e, rfl⟩
        | ok s' =>
            obtain ⟨e, he⟩ := ih ⟨p, hrest, hmem⟩
            rw [he]
            exact ⟨e, rfl⟩

lemma zip_map_snd_keys (kinds : List StatKind) :
    ∀ (sts : OpStats ℚ),
      (kinds.zip sts).map (fun p => p.2.map Prod.fst) =
        (sts.take kinds.length).map (fun s => s.map Prod.fst) := by
  induction kinds with
  | nil => intro sts; simp
  | cons k ks ih =>
      intro sts
      cases sts with
      | nil => simp
      | cons s rest => simp [ih rest]

lemma update_op_stats_keys {kinds : List StatKind} {sts sts' : OpStats ℚ} {gdf : DataFrame ℚ}
    (h : update_op_stats kinds sts gdf = Except.ok sts') :
    sts'.map (fun s => s.map Prod.fst) = sts.map (fun s => s.map Prod.fst) := by
  unfold update_op_stats at h
  cases hz : update_zipped gdf (kinds.zip sts) with
  | error e => rw [hz] at h; cases h
  | ok u =>
      rw [hz] at h
      cases h
      have hu := update_zipped_keys hz
      rw [zip_map_snd_keys] at hu
      rw [List.map_append, hu]
      rcases le_total kinds.length sts.length with hle | hle
      · rw [min_eq_left hle, List.map_take, List.map_drop, List.take_append_drop]
      · rw [min_eq_right hle, List.take_of_length_le hle, List.drop_length, List.map_nil,
          List.append_nil]

lemma requiredCols_congr (kinds : List StatKind) (e e' : OpStats ℚ)
    (hkeys : e.map (fun s => s.map Prod.fst) = e'.map (fun s => s.map Prod.fst)) :
    ((kinds.zip e).map (fun p => p.2.map Prod.fst)).flatten =
      ((kinds.zip e').map (fun p => p.2.map Prod.fst)).flatten := by
  rw [zip_map_snd_keys, zip_map_snd_keys, List.map_take, List.map_take, hkeys]

lemma lookup_stateSet (st : StateMap ℚ) (k k' : String) (v : OpStats ℚ) :
    List.lookup k' (stateSet st k v) =
      if k' = k then (List.lookup k' st).map (fun _ => v) else List.lookup k' st := by
  induction st with
  | nil =>
      by_cases hk : k' = k <;> simp [stateSet, hk]
  | cons p rest ih =>
      obtain ⟨a, b⟩ := p
      show List.lookup k' ((if a = k then (k, v) else (a, b)) :: stateSet rest k v) = _
      by_cases hak : a = k
      · subst hak
        rw [if_pos rfl]
        by_cases hk' : k' = a
        · subst hk'
          simp [List.lookup]
        · have hbe : (k' == a) = false := by
            simp [hk']
          simp [List.lookup, hbe, hk', ih]
      · rw [if_neg hak]
        by_cases hk' : k' = a
        · subst hk'
          have hkk : ¬ k' = k := fun hh => hak hh
          simp [List.lookup, hkk]
        · have hbe : (k' == a) = false := by
            simp [hk']
          simp [List.lookup, hbe, ih]

lemma fit_op_step_preserves_requiredStatCols {st st' : StateMap ℚ} {wl wl' : List String}
    {gdf gdf' : DataFrame ℚ} {op : Op ℚ}
    (h : fit_op_step st wl gdf op = Except.ok (st', wl', gdf')) (B : Op ℚ) :
    requiredStatCols st' B = requiredStatCols st B := by
  unfold fit_op_step at h
  cases hlk : List.lookup op.id st with
  | none =>
      rw [hlk] at h
      cases happ : op.apply gdf Option.none (Option.some wl) with
      | error e => rw [happ] at h; cases h
      | ok g => rw [happ] at h; cases h; rfl
  | some entry =>
      rw [hlk] at h
      dsimp only at h
      cases hup : update_op_stats op.stats_required entry gdf with
      | error e => rw [hup] at h; cases h
      | ok entry' =>
          rw [hup] at h
          dsimp only at h
          cases hpi : pyIterColumns op.columns with
          | error e => rw [hpi] at h; cases h
          | ok cols =>
              rw [hpi] at h
              dsimp only at h
              cases hdr : dfDrop gdf cols with
              | error e => rw [hdr] at h; cases h
              | ok g2 =>
                  rw [hdr] at h
                  cases h
                  unfold requiredStatCols
                  rw [lookup_stateSet]
                  by_cases hBid : B.id = op.id
                  · rw [if_pos hBid, hBid, hlk]
                    simp only [Option.map]
                    exact requiredCols_congr B.stats_required entry' entry
                      (update_op_stats_keys hup)
                  · rw [if_neg hBid]

lemma apply_ok_columns_eq {op : Op ℚ} {gdf g' : DataFrame ℚ} {ctx : Option (StateMap ℚ)}
    {wl : Option (List String)} (h : op.apply gdf ctx wl = Except.ok g') :
    dfColumns g' = dfColumns gdf := by
  unfold Op.apply at h
  cases h1 : op.validate_columns (dfColumns gdf) wl with
  | error e => rw [h1] at h; cases h
  | ok cols =>
      rw [h1] at h
      dsimp only at h
      cases h2 : op.validate_stats ctx with
      | error e => rw [h2] at h; cases h
      | ok ss =>
          rw [h2] at h
          dsimp only at h
          cases h3 : op.op_logic (dfSelect gdf cols) ss with
          | error e => rw [h3] at h; cases h
          | ok ng =>
              rw [h3] at h
              dsimp only at h
              by_cases hr : op.replace
              · rw [if_pos hr] at h
                cases h
                unfold dfColumns dfAssign
                rw [List.map_map]
                apply List.map_congr_left
                intro p _
                by_cases hp : p.1 ∈ cols <;> simp [hp]
              · rw [if_neg hr] at h
                cases h

lemma fit_op_step_columns_subset {st st' : StateMap ℚ} {wl wl' : List String}
    {gdf gdf' : DataFrame ℚ} {op : Op ℚ}
    (h : fit_op_step st wl gdf op = Except.ok (st', wl', gdf')) :
    ∀ c, c ∈ dfColumns gdf' → c ∈ dfColumns gdf := by
  unfold fit_op_step at h
  cases hlk : List.lookup op.id st with
  | none =>
      rw [hlk] at h
      cases happ : op.apply gdf Option.none (Option.some wl) with
      | error e => rw [happ] at h; cases h
      | ok g =>
          rw [happ] at h
          cases h
          intro c hc
          rw [apply_ok_columns_eq happ] at hc
          exact hc
  | some entry =>
      rw [hlk] at h
      dsimp only at h
      cases hup : update_op_stats op.stats_required entry gdf with
      | error e => rw [hup] at h; cases h
      | ok entry' =>
          rw [hup] at h
          dsimp only at h
          cases hpi : pyIterColumns op.columns with
          | error e => rw [hpi] at h; cases h
          | ok cols =>
              rw [hpi] at h
              dsimp only at h
              cases hdr : dfDrop gdf cols with
              | error e => rw [hdr] at h; cases h
              | ok g2 =>
                  rw [hdr] at h
                  cases h
                  unfold dfDrop at hdr
                  split at hdr
                  · cases hdr
                    intro c hc
                    unfold dfColumns at hc ⊢
                    obtain ⟨p, hp, rfl⟩ := List.mem_map.mp hc
                    exact List.mem_map.mpr ⟨p, (List.mem_filter.mp hp).1, rfl⟩
                  · cases hdr

lemma fit_op_step_error_of_required_missing {st : StateMap ℚ} {wl : List String}
    {gdf : DataFrame ℚ} {op : Op ℚ} {c : String}
    (hc : c ∉ dfColumns gdf) (hreq : c ∈ requiredStatCols st op) :
    ∃ e, fit_op_step st wl gdf op = Except.error e := by
  unfold requiredStatCols at hreq
  cases hlk : List.lookup op.id st with
  | none =>
      rw [hlk] at hreq
      cases hreq
  | some entry =>
      rw [hlk] at hreq
      have hex : ∃ p ∈ op.stats_required.zip entry, c ∈ p.2.map Prod.fst := by
        rw [List.mem_flatten] at hreq
        obtain ⟨l, hl, hcl⟩ := hreq
        obtain ⟨p, hp, rfl⟩ := List.mem_map.mp hl
        exact ⟨p, hp, hcl⟩
      obtain ⟨e, he⟩ := update_zipped_error_of_missing hc hex
      refine ⟨e, ?_⟩
      unfold fit_op_step
      rw [hlk]
      dsimp only
      unfold update_op_stats
      simp only [he]

lemma process_batch_ops_error_of_required_missing :
    ∀ (ops : List (Op ℚ)) (st : StateMap ℚ) (wl : List String) (gdf : DataFrame ℚ)
      (c : String), c ∉ dfColumns gdf → (∃ B ∈ ops, c ∈ requiredStatCols st B) →
      ∃ e, process_batch_ops st wl gdf ops = Except.error e := by
  intro ops
  induction ops with
  | nil =>
      rintro st wl gdf c hc ⟨B, hB, _⟩
      cases hB
  | cons H rest ih =>
      rintro st wl gdf c hc ⟨B, hB, hreq⟩
      unfold process_batch_ops
      cases hstep : fit_op_step st wl gdf H with
      | error e => exact ⟨e, rfl⟩
      | ok t =>
          obtain ⟨st', wl', gdf'⟩ := t
          rcases List.mem_cons.mp hB with rfl | hmem
          · obtain ⟨e, he⟩ := fit_op_step_error_of_required_missing hc hreq
            rw [he] at hstep
            cases hstep
          · have hc' : c ∉ dfColumns gdf' :=
              fun hmem' => hc (fit_op_step_columns_subset hstep c hmem')
            have hreq' : c ∈ requiredStatCols st' B := by
              rw [fit_op_step_preserves_requiredStatCols hstep B]
              exact hreq
            exact ih st' wl' gdf' c hc' ⟨B, hmem, hreq'⟩

/-- C9: within one fit batch, once a stats-requiring op's accumulators have
been updated, its columns are dropped from the batch and appended to the
whitelist; because every later successful op step can only shrink the batch's
column set, no later op sees those columns again, and a later op whose stored
stat states require one of those columns makes the batch processing error
instead of updating that accumulator. -/
theorem fit_drops_stat_columns_and_later_requirers_error (st st' : StateMap ℚ)
    (wl wl' : List String) (gdf gdf' : DataFrame ℚ) (A : Op ℚ) (csA : List String)
    (rest : List (Op ℚ)) (hcols : A.columns = ColumnsSpec.explicit csA)
    (hkey : (List.lookup A.id st).isSome = true)
    (hstep : fit_op_step st wl gdf A = Except.ok (st', wl', gdf')) :
    (∀ c ∈ csA, c ∉ dfColumns gdf' ∧ c ∈ wl') ∧
    (∀ B ∈ rest, ∀ c ∈ csA, c ∈ requiredStatCols st' B →
      ∃ e, process_batch_ops st' wl' gdf' rest = Except.error e) := by
  have hmain : ∀ c ∈ csA, c ∉ dfColumns gdf' ∧ c ∈ wl' := by
    unfold fit_op_step at hstep
    cases hlk : List.lookup A.id st with
    | none => rw [hlk] at hkey; cases hkey
    | some entry =>
        rw [hlk] at hstep
        dsimp only at hstep
        cases hup : update_op_stats A.stats_required entry gdf with
        | error e => rw [hup] at hstep; cases hstep
        | ok entry' =>
            rw [hup] at hstep
            dsimp only at hstep
            rw [hcols] at hstep
            rw [show pyIterColumns (ColumnsSpec.explicit csA) = Except.ok csA from rfl]
              at hstep
            dsimp only at hstep
            cases hdr : dfDrop gdf csA with
            | error e =>
                rw [hdr] at hstep
                cases hstep
            | ok g2 =>
                rw [hdr] at hstep
                cases hstep
                unfold dfDrop at hdr
                split at hdr
                · cases hdr
                  intro c hcmem
                  constructor
                  · intro hmem
                    unfold dfColumns at hmem
                    obtain ⟨p, hp, rfl⟩ := List.mem_map.mp hmem
                    have := (List.mem_filter.mp hp).2
                    simp only [decide_eq_true_eq] at this
                    exact this hcmem
                  · exact List.mem_append.mpr (Or.inr hcmem)
                · cases hdr
  refine ⟨hmain, ?_⟩
  intro B hB c hcmem hreq
  exact process_batch_ops_error_of_required_missing rest st' wl' gdf' c
    (hmain c hcmem).1 ⟨B, hB, hreq⟩

/-- A second stats-requiring op over the same column `x`, distinguished by the
explicit name `n2` so it is stored under its own identity. -/
def normX2 : Op ℚ :=
  { NormalizeOp (fun x => x) with
    columns := ColumnsSpec.explicit [("x" : String)]
    name := NameSpec.str ("n2") }

/-- A fit state holding initialized Moments accumulators for both stats ops. -/
def stTwoOps : StateMap ℚ :=
  [(("normalize" : String), [[(("x" : String), StatVal.momentsV Moments.initialize_state)]]),
   (("n2" : String), [[(("x" : String), StatVal.momentsV Moments.initialize_state)]])]

/-- The state after the first op's accumulator absorbed the batch `[1, 2]`. -/
def stTwoOps' : StateMap ℚ :=
  [(("normalize" : String),
      [[(("x" : String),
          StatVal.momentsV (Moments.update_state Moments.initialize_state [(1 : ℚ), 2]))]]),
   (("n2" : String), [[(("x" : String), StatVal.momentsV Moments.initialize_state)]])]

/-- Witness for C9 on a two-op workflow over the single column `x`: the first
stats op's step drops `x` and whitelists it, and processing the second stats
op, which also requires `x`, errors. -/
theorem fit_drops_stat_columns_and_later_requirers_error_witness :
    fit_op_step stTwoOps [] [(("x" : String), [(1 : ℚ), 2])] normX =
        Except.ok (stTwoOps', [("x" : String)], []) ∧
      ∃ e, process_batch_ops stTwoOps' [("x" : String)] [] [normX2] = Except.error e :=
  ⟨rfl,
    (fit_drops_stat_columns_and_later_requirers_error stTwoOps stTwoOps' [] [("x" : String)]
        [(("x" : String), [(1 : ℚ), 2])] [] normX [("x" : String)] [normX2] rfl rfl rfl).2
      normX2 (List.Mem.head _) ("x") (List.Mem.head _) (by decide)⟩

end FitPassClaims

section EndToEndClaim

lemma npMean_one_to_five : npMean [(1 : ℝ), 2, 3, 4, 5] = 3 := by
  unfold npMean
  simp only [List.sum_cons, List.sum_nil, List.length_cons, List.length_nil]
  norm_num

lemma moments_update_one_to_five :
    Moments.update_state (Moments.initialize_state : MomentsState ℝ) [(1 : ℝ), 2, 3, 4, 5] =
      ⟨5, 3, 2⟩ := by
  unfold Moments.update_state Moments.initialize_state npVar
  simp only [npMean_one_to_five, List.length_cons, List.length_nil, List.sum_cons,
    List.sum_nil, List.map_cons, List.map_nil, MomentsState.mk.injEq]
  refine ⟨by norm_num, ?_, ?_⟩ <;> norm_num [npMean_one_to_five]

/-- C8: end-to-end Normalize over the single continuous column `x` with values
`[1, 2, 3, 4, 5]` presented as one batch.  Building the workflow freezes the
column selection to `['x']`; fitting yields the Moments state with count 5,
mean 3 and variance 2; applying the fitted workflow replaces the column by
`(x - 3) / sqrt 2` for each value (exact real arithmetic, with `Real.sqrt`
standing for `np.sqrt`). -/
theorem normalize_end_to_end :
    Workflow.new [] [("x" : String)] [] [NormalizeOp Real.sqrt] =
      Except.ok
        ({ cat_names := [], cont_names := [("x" : String)], label_names := [],
           ops := [{ NormalizeOp Real.sqrt with
                     columns := ColumnsSpec.explicit [("x" : String)] }] } : Workflow ℝ) ∧
    StatsContext.fit []
        ({ cat_names := [], cont_names := [("x" : String)], label_names := [],
           ops := [{ NormalizeOp Real.sqrt with
                     columns := ColumnsSpec.explicit [("x" : String)] }] } : Workflow ℝ)
        [[(("x" : String), [(1 : ℝ), 2, 3, 4, 5])]] false =
      Except.ok [(("normalize" : String),
        [[(("x" : String), StatVal.momentsV ⟨5, 3, 2⟩)]])] ∧
    Workflow.apply
        ({ cat_names := [], cont_names := [("x" : String)], label_names := [],
           ops := [{ NormalizeOp Real.sqrt with
                     columns := ColumnsSpec.explicit [("x" : String)] }] } : Workflow ℝ)
        [(("x" : String), [(1 : ℝ), 2, 3, 4, 5])]
        (Option.some [(("normalize" : String),
          [[(("x" : String), StatVal.momentsV ⟨5, 3, 2⟩)]])]) =
      Except.ok [(("x" : String),
        [((1 : ℝ) - 3) / Real.sqrt 2, ((2 : ℝ) - 3) / Real.sqrt 2, ((3 : ℝ) - 3) / Real.sqrt 2,
         ((4 : ℝ) - 3) / Real.sqrt 2, ((5 : ℝ) - 3) / Real.sqrt 2])] := by
  refine ⟨by rfl, ?_, by rfl⟩
  have hfit :
      StatsContext.fit []
          ({ cat_names := [], cont_names := [("x" : String)], label_names := [],
             ops := [{ NormalizeOp Real.sqrt with
                       columns := ColumnsSpec.explicit [("x" : String)] }] } : Workflow ℝ)
          [[(("x" : String), [(1 : ℝ), 2, 3, 4, 5])]] false =
        Except.ok [(("normalize" : String),
          [[(("x" : String),
              StatVal.momentsV
                (Moments.update_state Moments.initialize_state [(1 : ℝ), 2, 3, 4, 5]))]])] := rfl
  rw [hfit, moments_update_one_to_five]

end EndToEndClaim
